import Mathlib

/-!
Shallow embedding of the onnx-tensorrt operator-lowering engine, for checking
the repository's natural-language specification against the code.

The embedding covers:
* the `ONNXParserErrorRecorder` collaborator (onnxErrorRecorder.hpp/.cpp);
* the operator importers cited by the claims (`importSlice`,
  `applyLegacyBinaryOpBroadcasting`, `combineTensorsElementwise`,
  `importLSTM`, `importLoop`, `importAveragePool`, `importTranspose`,
  all from builtin_op_importers.cpp).

Backend network mutation (`ctx->network()->addX(...)`) is modelled by explicit
state passing over a `Net` value that records the emitted layers in order and
hands out fresh tensor ids, mirroring the in-place mutation of the TensorRT
INetworkDefinition.  Machine integers are modelled as `Int`/`Nat` with explicit
reductions modulo `2 ^ 32` / `2 ^ 64` at the points where the C++ performs a
narrowing or sign-changing conversion.
-/

namespace OnnxTrt

/-- nvinfer1 `ErrorCode` values (NvInferRuntimeCommon.h) used by the error
recorder. -/
inductive NvErrorCode where
  | kSUCCESS
  | kUNSPECIFIED_ERROR
  | kINTERNAL_ERROR
  | kINVALID_ARGUMENT
  | kINVALID_CONFIG
  deriving DecidableEq, Repr

/-- Parser-side error codes (`nvonnxparser::ErrorCode`) as used by the ASSERT
macros of builtin_op_importers.cpp.  `kINVALID_ATTRIBUTE` renders the spec's
`InvalidAttribute` class for helpers that are modelled from the spec. -/
inductive ErrorCode where
  | kSUCCESS
  | kINTERNAL_ERROR
  | kINVALID_NODE
  | kUNSUPPORTED_NODE
  | kINVALID_VALUE
  | kUNSUPPORTED_GRAPH
  | kINVALID_ATTRIBUTE
  deriving DecidableEq, Repr

/-! ## Error recorder (onnxErrorRecorder.hpp / onnxErrorRecorder.cpp) -/

/-- State of `ONNXParserErrorRecorder`: the mutex-guarded error stack
`mErrorStack` (a vector pairing an error code with its description). -/
structure ErrorRecorder where
  stack : List (NvErrorCode × String)
  deriving DecidableEq, Repr

/-- `invalidIndexCheck` from onnxErrorRecorder.hpp: the `int32_t` index is
converted to `size_t` (64-bit unsigned), so a negative index becomes a large
positive value and a single `>= size` comparison suffices. -/
def ErrorRecorder.invalidIndexCheck (r : ErrorRecorder) (index : Int) : Bool :=
  let sIndex : Nat := (index % (2 ^ 64 : Int)).toNat
  decide (sIndex ≥ r.stack.length)

/-- `getErrorCode(errorIdx)`: bounds-checked read of the recorded code;
out-of-range indices yield `kINVALID_ARGUMENT`. -/
def ErrorRecorder.getErrorCode (r : ErrorRecorder) (errorIdx : Int) : NvErrorCode :=
  if r.invalidIndexCheck errorIdx then .kINVALID_ARGUMENT
  else (r.stack.getD ((errorIdx % (2 ^ 64 : Int)).toNat) (.kSUCCESS, "")).1

/-- `getErrorDesc(errorIdx)`: bounds-checked read of the recorded description;
out-of-range indices yield the fixed out-of-range message. -/
def ErrorRecorder.getErrorDesc (r : ErrorRecorder) (errorIdx : Int) : String :=
  if r.invalidIndexCheck errorIdx then "errorIdx out of range."
  else (r.stack.getD ((errorIdx % (2 ^ 64 : Int)).toNat) (.kSUCCESS, "")).2

/-- Narrowing conversion of a `size_t` value to `int32_t` (two's complement),
performed implicitly by `getNbErrors`'s return statement. -/
def toInt32 (n : Nat) : Int :=
  let m : Nat := n % 2 ^ 32
  if m < 2 ^ 31 then (m : Int) else (m : Int) - 2 ^ 32

/-- `getNbErrors()`: returns `mErrorStack.size()` narrowed to `int32_t`. -/
def ErrorRecorder.getNbErrors (r : ErrorRecorder) : Int :=
  toInt32 r.stack.length

/-- `reportError(val, desc)` from onnxErrorRecorder.cpp: under `mStackLock`,
appends the pair to `mErrorStack` (then forwards to the user recorder or logs,
neither of which touches the stack); always returns `true` since all errors
are considered fatal. -/
def ErrorRecorder.reportError (r : ErrorRecorder) (val : NvErrorCode) (desc : String) :
    ErrorRecorder × Bool :=
  ({ stack := r.stack ++ [(val, desc)] }, true)

/-- `clear()`: under the same mutex, discards all recorded errors. -/
def ErrorRecorder.clear (_r : ErrorRecorder) : ErrorRecorder :=
  { stack := [] }

/-- A concurrent execution of `reportError` calls from distinct threads:
each call's critical section is serialized by `mStackLock`, so the whole
execution is the sequential fold of the appends in some scheduling order
(an arbitrary permutation of the threads' pairs). -/
def ErrorRecorder.runReports (r : ErrorRecorder) (ps : List (NvErrorCode × String)) :
    ErrorRecorder :=
  ps.foldl (fun s p => (s.reportError p.1 p.2).1) r

theorem ErrorRecorder.runReports_stack (ps : List (NvErrorCode × String))
    (r : ErrorRecorder) : (r.runReports ps).stack = r.stack ++ ps := by
  induction ps generalizing r with
  | nil => simp [ErrorRecorder.runReports]
  | cons p ps ih =>
    simp only [ErrorRecorder.runReports, List.foldl_cons] at *
    rw [ih]
    simp [ErrorRecorder.reportError]

theorem getD_range_map {α : Type} (l : List α) (d : α) :
    (List.range l.length).map (fun k => l.getD k d) = l := by
  induction l with
  | nil => simp
  | cons a l ih =>
    simp only [List.length_cons, List.range_succ_eq_map, List.map_cons, List.map_map,
      Function.comp_def, List.getD_cons_zero, List.getD_cons_succ]
    rw [ih]

theorem toInt32_of_lt {n : Nat} (h : n < 2 ^ 31) : toInt32 n = n := by
  unfold toInt32
  have h32 : n % 2 ^ 32 = n := Nat.mod_eq_of_lt (by omega)
  simp only [h32]
  omega

/-- C9: for every index `i` outside `[0, nbErrors)` — every negative `i`
included — `getErrorCode(i)` returns `kINVALID_ARGUMENT` and `getErrorDesc(i)`
returns the out-of-range description string; indices inside the range return
exactly the recorded (code, description) pair.  The hypotheses bound `i` to the
`int32_t` domain and the stack to the `int32_t`-reportable size. -/
theorem errorRecorder_bounds_checked (r : ErrorRecorder) (i : Int)
    (hlen : r.stack.length ≤ 2 ^ 31) (hlo : -(2 ^ 31) ≤ i) (hhi : i < 2 ^ 31) :
    ((i < 0 ∨ (r.stack.length : Int) ≤ i) →
        r.getErrorCode i = .kINVALID_ARGUMENT ∧
        r.getErrorDesc i = "errorIdx out of range.") ∧
    (∀ hi : i.toNat < r.stack.length, 0 ≤ i →
        r.getErrorCode i = (r.stack.get ⟨i.toNat, hi⟩).1 ∧
        r.getErrorDesc i = (r.stack.get ⟨i.toNat, hi⟩).2) := by
  constructor
  · intro hout
    have hinv : r.invalidIndexCheck i = true := by
      unfold ErrorRecorder.invalidIndexCheck
      simp only [ge_iff_le, decide_eq_true_eq]
      omega
    exact ⟨by simp [ErrorRecorder.getErrorCode, hinv],
           by simp [ErrorRecorder.getErrorDesc, hinv]⟩
  · intro hi hpos
    have hinv : r.invalidIndexCheck i = false := by
      unfold ErrorRecorder.invalidIndexCheck
      simp only [ge_iff_le, decide_eq_false_iff_not, not_le]
      omega
    have hidx : (i % (2 ^ 64 : Int)).toNat = i.toNat := by omega
    have hget : r.stack.getD i.toNat (.kSUCCESS, "") = r.stack.get ⟨i.toNat, hi⟩ := by
      rw [List.getD_eq_getElem r.stack _ hi, List.get_eq_getElem]
    constructor
    · unfold ErrorRecorder.getErrorCode
      rw [hinv]
      simp only [Bool.false_eq_true, if_false]
      rw [hidx, hget]
    · unfold ErrorRecorder.getErrorDesc
      rw [hinv]
      simp only [Bool.false_eq_true, if_false]
      rw [hidx, hget]

theorem errorRecorder_bounds_checked_witness :
    (ErrorRecorder.mk [(.kINTERNAL_ERROR, "boom")]).getErrorCode (-1) = .kINVALID_ARGUMENT ∧
    (ErrorRecorder.mk [(.kINTERNAL_ERROR, "boom")]).getErrorDesc (-1) = "errorIdx out of range." ∧
    (ErrorRecorder.mk [(.kINTERNAL_ERROR, "boom")]).getErrorCode 0 = .kINTERNAL_ERROR ∧
    (ErrorRecorder.mk [(.kINTERNAL_ERROR, "boom")]).getErrorDesc 0 = "boom" := by
  have hout := (errorRecorder_bounds_checked (ErrorRecorder.mk [(.kINTERNAL_ERROR, "boom")])
    (-1) (by norm_num) (by norm_num) (by norm_num)).1 (by norm_num)
  have hin := (errorRecorder_bounds_checked (ErrorRecorder.mk [(.kINTERNAL_ERROR, "boom")])
    0 (by norm_num) (by norm_num) (by norm_num)).2 (by norm_num) (by norm_num)
  exact ⟨hout.1, hout.2, hin.1, hin.2⟩

/-- C10: N `reportError` calls racing from distinct threads are serialized by
`mStackLock`, so the overall execution appends the N pairs in some scheduler
order (a permutation).  For every such order: `getNbErrors() = N`, the pairs
read back through the accessors at indices `0..N-1` are exactly the reported
pairs — none lost, none duplicated — and every call returned true (fatal).
`N < 2^31` keeps the count representable in the `int32_t` return type. -/
theorem reportError_concurrent_exact (pairs sched : List (NvErrorCode × String))
    (hperm : sched.Perm pairs) (hN : pairs.length < 2 ^ 31) :
    (ErrorRecorder.runReports ⟨[]⟩ sched).getNbErrors = pairs.length ∧
    ((List.range pairs.length).map fun k : Nat =>
        ((ErrorRecorder.runReports ⟨[]⟩ sched).getErrorCode (k : Int),
         (ErrorRecorder.runReports ⟨[]⟩ sched).getErrorDesc (k : Int))).Perm pairs ∧
    (∀ (s : ErrorRecorder) (c : NvErrorCode) (d : String), (s.reportError c d).2 = true) := by
  have hstack : (ErrorRecorder.runReports ⟨[]⟩ sched).stack = sched := by
    simpa using ErrorRecorder.runReports_stack sched ⟨[]⟩
  have hlen : sched.length = pairs.length := hperm.length_eq
  refine ⟨?_, ?_, fun s c d => rfl⟩
  · rw [ErrorRecorder.getNbErrors, hstack, hlen, toInt32_of_lt hN]
  · have hmap : ((List.range pairs.length).map fun k : Nat =>
        ((ErrorRecorder.runReports ⟨[]⟩ sched).getErrorCode (k : Int),
         (ErrorRecorder.runReports ⟨[]⟩ sched).getErrorDesc (k : Int))) = sched := by
      rw [← hlen]
      have hpt : ∀ k ∈ List.range sched.length,
          ((ErrorRecorder.runReports ⟨[]⟩ sched).getErrorCode (k : Int),
           (ErrorRecorder.runReports ⟨[]⟩ sched).getErrorDesc (k : Int))
            = sched.getD k (.kSUCCESS, "") := by
        intro k hk
        rw [List.mem_range] at hk
        have hkN : k < 2 ^ 31 := by omega
        have hinv : (ErrorRecorder.runReports ⟨[]⟩ sched).invalidIndexCheck k = false := by
          unfold ErrorRecorder.invalidIndexCheck
          rw [hstack]
          simp only [ge_iff_le, decide_eq_false_iff_not, not_le]
          omega
        have hidx : ((k : Int) % (2 ^ 64 : Int)).toNat = k := by omega
        rw [ErrorRecorder.getErrorCode, ErrorRecorder.getErrorDesc, hinv]
        simp only [Bool.false_eq_true, if_false, hidx, hstack]
      rw [List.map_congr_left hpt, getD_range_map]
    rw [hmap]
    exact hperm

theorem reportError_concurrent_exact_witness :
    (ErrorRecorder.runReports ⟨[]⟩
        [(.kINVALID_ARGUMENT, "b"), (.kINTERNAL_ERROR, "a")]).getNbErrors = 2 ∧
    ((List.range 2).map fun k : Nat =>
        ((ErrorRecorder.runReports ⟨[]⟩
            [(.kINVALID_ARGUMENT, "b"), (.kINTERNAL_ERROR, "a")]).getErrorCode (k : Int),
         (ErrorRecorder.runReports ⟨[]⟩
            [(.kINVALID_ARGUMENT, "b"), (.kINTERNAL_ERROR, "a")]).getErrorDesc (k : Int))).Perm
      [(.kINTERNAL_ERROR, "a"), (.kINVALID_ARGUMENT, "b")] := by
  have h := reportError_concurrent_exact
    [(.kINTERNAL_ERROR, "a"), (.kINVALID_ARGUMENT, "b")]
    [(.kINVALID_ARGUMENT, "b"), (.kINTERNAL_ERROR, "a")]
    (List.Perm.swap _ _ _) (by norm_num)
  exact ⟨by simpa using h.1, by simpa using h.2.1⟩

/-! ## Backend network and value model (builtin_op_importers.cpp) -/

/-- `nvinfer1::Dims`: ordered dimension extents; `-1` is the dynamic sentinel.
`nbDims` is the list length; the componentwise `operator==` of the utility
headers is list equality. -/
abbrev Dims := List Int

/-- `nvinfer1::ElementWiseOperation` values used here. -/
inductive EltOp where
  | kSUM
  | kPROD
  | kMAX
  | kMIN
  | kSUB
  | kDIV
  | kPOW
  deriving DecidableEq, Repr

/-- `nvinfer1::LoopOutput` values. -/
inductive LoopOutKind where
  | kLAST_VALUE
  | kCONCATENATE
  | kREVERSE
  deriving DecidableEq, Repr

/-- `nvinfer1::TripLimit` values. -/
inductive TripKind where
  | kCOUNT
  | kWHILE_NONZERO
  deriving DecidableEq, Repr

/-- Kinds of backend layers emitted by the lowering routines under scrutiny,
carrying the parameters the claims talk about.  `shapeArith` stands for the
shape-gather/fill layers of helpers such as `getAxisLength`/`constantOfShape`
whose exact backend calls are irrelevant to every claim. -/
inductive LayerKind where
  | constant (shape : Dims) (values : List Int)
  | identityLayer
  | elementwise (op : EltOp)
  | sliceLayer (start size stride : Dims)
  | shuffle
  | pooling
  | reduce
  | concat
  | matrixMultiply
  | activation
  | loopBoundary
  | tripLimit (kind : TripKind)
  | iterator (reverse : Bool)
  | recurrence
  | loopOutput (kind : LoopOutKind)
  | shapeArith
  deriving DecidableEq, Repr

/-- One emitted backend layer: its kind, the ids of its input tensors and the
id of its (first) output tensor. -/
structure Layer where
  kind : LayerKind
  ins : List Nat
  outId : Nat
  deriving DecidableEq, Repr

/-- The backend network being populated: emitted layers in order plus a fresh
tensor-id counter.  Explicit state passing mirrors the in-place mutation of
the `INetworkDefinition` held by the importer context. -/
structure Net where
  layers : List Layer
  nextId : Nat
  deriving DecidableEq, Repr

def Net.empty : Net := ⟨[], 0⟩

/-- `ctx->network()->addX(...)`: append one layer, allocating a fresh id for
its output tensor; returns the output id. -/
def Net.add (net : Net) (kind : LayerKind) (ins : List Nat) : Net × Nat :=
  (⟨net.layers ++ [⟨kind, ins, net.nextId⟩], net.nextId + 1⟩, net.nextId)

theorem Net.add_layers (net : Net) (kind : LayerKind) (ins : List Nat) :
    ((net.add kind ins).1).layers = net.layers ++ [⟨kind, ins, net.nextId⟩] := rfl

/-- `TensorOrWeights`: either a backend tensor handle (id plus dims) or an
owned compile-time-constant buffer (shape plus row-major values). -/
inductive TensorOrWeights where
  | tensor (id : Nat) (dims : Dims)
  | weights (shape : Dims) (values : List Int)
  deriving DecidableEq, Repr

/-- `TensorOrWeights::shape()`: uniform over both kinds. -/
def TensorOrWeights.shape : TensorOrWeights → Dims
  | .tensor _ d => d
  | .weights s _ => s

/-- `TensorOrWeights::is_weights()`. -/
def TensorOrWeights.isWeightsKind : TensorOrWeights → Bool
  | .tensor _ _ => false
  | .weights _ _ => true

/-- Modelled from the spec (§4.1 `asTensor`; the `convertToTensor` helper's
implementation is not among the given sources): a tensor value is returned
unchanged, a weights value is materialized through a constant-producing layer
whose output handle is returned. -/
def convertToTensor (v : TensorOrWeights) (net : Net) : Net × (Nat × Dims) :=
  match v with
  | .tensor id d => (net, (id, d))
  | .weights s vals =>
      let r := net.add (.constant s vals) []
      (r.1, (r.2, s))

/-- Modelled from the spec (§4.4; helper not among the given sources):
`expand_dims` pads a shape with leading size-1 dimensions up to the requested
rank. -/
def expand_dims (dims : Dims) (ndim : Nat) : Dims :=
  List.replicate (ndim - dims.length) 1 ++ dims

/-- Modelled from the spec (backend boundary; helper not among the given
sources): `reshape_tensor` emits one shuffle (reshape) layer and returns its
output with the new dims. -/
def reshape_tensor (t : Nat) (newDims : Dims) (net : Net) : Net × (Nat × Dims) :=
  let r := net.add .shuffle [t]
  (r.1, (r.2, newDims))

/-- Modelled from the spec (§4.4; helper not among the given sources):
`identity(ctx, tensor)` emits one backend identity layer over the tensor and
returns the layer's output. -/
def identity (t : Nat) (net : Net) : Net × Nat :=
  net.add .identityLayer [t]

/-- Modelled from the spec (helper not among the given sources):
`convertToScalar` reshapes a one-element tensor to a rank-0 scalar through a
shuffle layer. -/
def convertToScalar (t : Nat) (net : Net) : Net × Nat :=
  net.add .shuffle [t]

/-- Modelled from the spec (§4.3 `normalizeAxis`; the `convert_axis` helper's
implementation is not among the given sources): a negative axis has the rank
added; out of range after normalization is a failure. -/
def convert_axis (axis : Int) (nbDims : Nat) : Except ErrorCode Nat :=
  let a := if axis < 0 then axis + nbDims else axis
  if 0 ≤ a ∧ a < (nbDims : Int) then .ok a.toNat else .error .kINVALID_ATTRIBUTE

/-! ## Elementwise combination family
(`applyLegacyBinaryOpBroadcasting`, `combineTensorsElementwise`) -/

/-- The node attributes consulted by the legacy (pre-opset-7) broadcasting
path: the optional `broadcast` flag and `axis`. -/
structure LegacyAttrs where
  broadcast : Option Int
  axis : Option Int
  deriving DecidableEq, Repr

/-- `applyLegacyBinaryOpBroadcasting` (builtin_op_importers.cpp): explicit
broadcasting for ONNX opset < 7.  When the `axis` and `broadcast` attributes
are both present and the flag is nonzero and rhs has strictly lower rank, rhs
is reshaped to `[1]*axis ++ rhs.shape ++ [1]*(lhsRank - rhsRank - axis)`;
otherwise the operands are left untouched and the call succeeds.  A weights
rhs only has its shape rewritten; a tensor rhs goes through a reshape
layer. -/
def applyLegacyBinaryOpBroadcasting (attrs : LegacyAttrs) (lhs rhs : TensorOrWeights)
    (net : Net) : Net × Except ErrorCode TensorOrWeights :=
  let lhs_ndim : Nat := lhs.shape.length
  let rhs_ndim : Nat := rhs.shape.length
  let broadcasting_on : Bool :=
    attrs.axis.isSome && attrs.broadcast.isSome && (attrs.broadcast.getD 0 != 0)
  if rhs_ndim ≥ lhs_ndim || !broadcasting_on then
    (net, .ok rhs)
  else
    let axisAttr : Int := attrs.axis.getD 0
    let axis : Int := if axisAttr < 0 then axisAttr + lhs_ndim else axisAttr
    let num_dims_to_add_at_end : Int := (lhs_ndim : Int) - rhs_ndim - axis
    if num_dims_to_add_at_end < 0 then (net, .error .kINVALID_NODE)
    else
      let new_shape : Dims :=
        List.replicate axis.toNat 1 ++ rhs.shape ++ List.replicate num_dims_to_add_at_end.toNat 1
      match rhs with
      | .weights _ vals => (net, .ok (.weights new_shape vals))
      | .tensor id _ =>
          let r := reshape_tensor id new_shape net
          (r.1, .ok (.tensor r.2.1 r.2.2))

/-- Modelled from the spec (§4.3 `broadcastShapes`, the rule the backend's
elementwise layer applies per dimension on equal-rank operands): extents must
be equal, 1, or dynamic; dynamic wins unless the other side is a concrete
non-1 extent; two differing concrete non-1 extents are an error (`none`, which
the importer surfaces as a failed layer creation). -/
def broadcastDim (a b : Int) : Option Int :=
  if a = -1 ∨ b = -1 then
    if a ≠ -1 ∧ a ≠ 1 then some a
    else if b ≠ -1 ∧ b ≠ 1 then some b
    else some (-1)
  else if a = b then some a
  else if a = 1 then some b
  else if b = 1 then some a
  else none

/-- Componentwise broadcast of two equal-rank shapes. -/
def broadcastDims : Dims → Dims → Option Dims
  | [], [] => some []
  | a :: as, b :: bs => do
      let d ← broadcastDim a b
      let rest ← broadcastDims as bs
      pure (d :: rest)
  | _, _ => none

/-- The conversion/expansion loop of `combineTensorsElementwise`: each operand
becomes a tensor and is reshaped (leading size-1 padding) when its rank is
below the maximum. -/
def convertAndExpandAll (inputs : List TensorOrWeights) (ndimMax : Nat) (net : Net) :
    Net × List (Nat × Dims) :=
  match inputs with
  | [] => (net, [])
  | v :: rest =>
      let (net1, td) := convertToTensor v net
      let (net2, td2) :=
        if td.2.length ≠ ndimMax then reshape_tensor td.1 (expand_dims td.2 ndimMax) net1
        else (net1, td)
      let (net3, tds) := convertAndExpandAll rest ndimMax net2
      (net3, td2 :: tds)

/-- The pairwise left-to-right fold of `combineTensorsElementwise`: ranks must
agree; each step emits one elementwise layer (a failed creation — incompatible
extents — is the `kUNSUPPORTED_NODE` assert on the null layer). -/
def foldElementwise (op : EltOp) (acc : Nat × Dims) (ts : List (Nat × Dims)) (net : Net) :
    Net × Except ErrorCode (Nat × Dims) :=
  match ts with
  | [] => (net, .ok acc)
  | t :: rest =>
      if t.2.length ≠ acc.2.length then (net, .error .kUNSUPPORTED_NODE)
      else
        match broadcastDims acc.2 t.2 with
        | none => (net, .error .kUNSUPPORTED_NODE)
        | some outDims =>
            let (net1, outId) := net.add (.elementwise op) [acc.1, t.1]
            foldElementwise op (outId, outDims) rest net1

/-- The generic (numpy-style) part of `combineTensorsElementwise`: find the
maximum rank, convert/expand every operand, then either wrap a single operand
in an identity layer ("Note: Single input must be wrapped in identity to avoid
messing up network outputs") or fold the operands pairwise. -/
def combineCore (inputs : List TensorOrWeights) (op : EltOp) (net : Net) :
    Net × Except ErrorCode TensorOrWeights :=
  let ndimMax : Nat := (inputs.map (fun v => v.shape.length)).foldl max 0
  let (net1, ts) := convertAndExpandAll inputs ndimMax net
  match ts with
  | [] => (net1, .error .kINVALID_NODE)
  | [t] =>
      let (net2, outId) := identity t.1 net1
      (net2, .ok (.tensor outId t.2))
  | t :: rest =>
      match foldElementwise op t rest net1 with
      | (net2, .ok r) => (net2, .ok (.tensor r.1 r.2))
      | (net2, .error e) => (net2, .error e)

/-- `combineTensorsElementwise` (builtin_op_importers.cpp): empty input is
invalid; under opset < 7 with `legacy_binary_op_broadcasting` the two operands
(internal error otherwise) first go through the legacy broadcaster; then the
generic conversion/expansion/fold runs. -/
def combineTensorsElementwise (opset : Nat) (attrs : LegacyAttrs)
    (inputs : List TensorOrWeights) (op : EltOp) (legacyBroadcasting : Bool)
    (net : Net) : Net × Except ErrorCode TensorOrWeights :=
  match inputs with
  | [] => (net, .error .kINVALID_NODE)
  | _ =>
    if opset < 7 && legacyBroadcasting then
      match inputs with
      | [lhs, rhs] =>
          match applyLegacyBinaryOpBroadcasting attrs lhs rhs net with
          | (net1, .error e) => (net1, .error e)
          | (net1, .ok rhs2) => combineCore [lhs, rhs2] op net1
      | _ => (net, .error .kINTERNAL_ERROR)
    else combineCore inputs op net

/-- C2 counterexample: a binary elementwise node at opset 6 with operand ranks
2 and 1 and no `broadcast`/`axis` attribute does not fail with
UnsupportedOperator — the lowering succeeds, implicitly broadcasting the
low-rank operand (reshape to `[1,3]`, then an elementwise layer). -/
theorem legacyBroadcast_absent_flag_no_error :
    (combineTensorsElementwise 6 ⟨none, none⟩
        [.tensor 0 [2, 3], .tensor 1 [3]] .kSUM true (Net.mk [] 2)).2
      = .ok (.tensor 3 [2, 3]) := by
  rfl

/-- C2 (amended): under opset < 7, when the `broadcast` attribute (or the
`axis` attribute) is absent, `applyLegacyBinaryOpBroadcasting` leaves the
operands untouched and succeeds, and `combineTensorsElementwise` behaves
exactly as it does from opset 7 on — implicit numpy-style broadcasting instead
of an UnsupportedOperator failure. -/
theorem legacyBroadcast_absent_flag_implicit (opset : Nat) (attrs : LegacyAttrs)
    (lhs rhs : TensorOrWeights) (op : EltOp) (net : Net)
    (hop : opset < 7) (habs : attrs.broadcast = none ∨ attrs.axis = none) :
    applyLegacyBinaryOpBroadcasting attrs lhs rhs net = (net, .ok rhs) ∧
    combineTensorsElementwise opset attrs [lhs, rhs] op true net
      = combineTensorsElementwise 7 attrs [lhs, rhs] op true net := by
  have hflag : (attrs.axis.isSome && attrs.broadcast.isSome
      && (attrs.broadcast.getD 0 != 0)) = false := by
    rcases habs with h | h <;> simp [h]
  have hlegacy : applyLegacyBinaryOpBroadcasting attrs lhs rhs net = (net, .ok rhs) := by
    unfold applyLegacyBinaryOpBroadcasting
    rw [hflag]
    simp
  refine ⟨hlegacy, ?_⟩
  show combineTensorsElementwise opset attrs [lhs, rhs] op true net
      = combineTensorsElementwise 7 attrs [lhs, rhs] op true net
  unfold combineTensorsElementwise
  have h6 : (decide (opset < 7) && true) = true := by simp [hop]
  have h7 : (decide (7 < 7) && true) = false := by decide
  simp only [h6, h7, if_true, if_false, Bool.false_eq_true, hlegacy]

theorem legacyBroadcast_absent_flag_implicit_witness :
    applyLegacyBinaryOpBroadcasting ⟨none, none⟩ (.tensor 0 [2, 3]) (.tensor 1 [3])
        (Net.mk [] 2)
      = (Net.mk [] 2, .ok (.tensor 1 [3])) ∧
    combineTensorsElementwise 6 ⟨none, none⟩ [.tensor 0 [2, 3], .tensor 1 [3]] .kSUM true
        (Net.mk [] 2)
      = combineTensorsElementwise 7 ⟨none, none⟩ [.tensor 0 [2, 3], .tensor 1 [3]] .kSUM true
        (Net.mk [] 2) :=
  legacyBroadcast_absent_flag_implicit 6 ⟨none, none⟩ (.tensor 0 [2, 3]) (.tensor 1 [3])
    .kSUM (Net.mk [] 2) (by decide) (Or.inl rfl)

/-- C6: a `combineTensorsElementwise` call with exactly one operand returns
the output of an explicitly emitted identity layer over the tensor-converted
operand — a fresh tensor distinct from the raw operand.  (The hypotheses
exclude the legacy-broadcasting dispatch, which the source itself declares
binary-only via an internal-error assert, and require the operand's tensor id
to be one the network has already allocated.) -/
theorem combineTensorsElementwise_single (opset : Nat) (attrs : LegacyAttrs) (op : EltOp)
    (v : TensorOrWeights) (net : Net) (legacy : Bool)
    (hleg : legacy = false ∨ 7 ≤ opset)
    (hwf : ∀ id d, v = .tensor id d → id < net.nextId) :
    combineTensorsElementwise opset attrs [v] op legacy net
      = ((identity (convertToTensor v net).2.1 (convertToTensor v net).1).1,
         .ok (.tensor (identity (convertToTensor v net).2.1 (convertToTensor v net).1).2
                      (convertToTensor v net).2.2)) ∧
    ((identity (convertToTensor v net).2.1 (convertToTensor v net).1).1).layers
      = ((convertToTensor v net).1).layers
        ++ [⟨.identityLayer, [(convertToTensor v net).2.1],
             ((convertToTensor v net).1).nextId⟩] ∧
    TensorOrWeights.tensor (identity (convertToTensor v net).2.1 (convertToTensor v net).1).2
        (convertToTensor v net).2.2 ≠ v := by
  have hdispatch : combineTensorsElementwise opset attrs [v] op legacy net
      = combineCore [v] op net := by
    unfold combineTensorsElementwise
    rcases hleg with h | h
    · subst h
      simp
    · have : (decide (opset < 7) && legacy) = false := by
        have : ¬ opset < 7 := by omega
        simp [this]
      simp [this]
  have hcore : combineCore [v] op net
      = ((identity (convertToTensor v net).2.1 (convertToTensor v net).1).1,
         .ok (.tensor (identity (convertToTensor v net).2.1 (convertToTensor v net).1).2
                      (convertToTensor v net).2.2)) := by
    cases v with
    | tensor id d =>
        simp [combineCore, convertAndExpandAll, convertToTensor, identity, Net.add,
          TensorOrWeights.shape, Nat.zero_max]
    | weights s vals =>
        simp [combineCore, convertAndExpandAll, convertToTensor, identity, Net.add,
          TensorOrWeights.shape, Nat.zero_max]
  refine ⟨hdispatch.trans hcore, rfl, ?_⟩
  cases v with
  | tensor id d =>
      have hid : id < net.nextId := hwf id d rfl
      simp only [convertToTensor, identity, Net.add]
      intro hcontra
      rw [TensorOrWeights.tensor.injEq] at hcontra
      obtain ⟨h1, -⟩ := hcontra
      omega
  | weights s vals =>
      intro hcontra
      exact absurd hcontra (by simp)

theorem combineTensorsElementwise_single_witness :
    combineTensorsElementwise 9 ⟨none, none⟩ [.tensor 0 [4]] .kSUM false (Net.mk [] 1)
      = (Net.mk [⟨.identityLayer, [0], 1⟩] 2, .ok (.tensor 1 [4])) ∧
    TensorOrWeights.tensor 1 [4] ≠ TensorOrWeights.tensor 0 [4] := by
  have h := combineTensorsElementwise_single 9 ⟨none, none⟩ .kSUM (.tensor 0 [4])
    (Net.mk [] 1) false (Or.inl rfl)
    (by intro id d hv; injection hv with h1 h2; subst h1; decide)
  exact ⟨h.1, h.2.2⟩

/-! ## importSlice (builtin_op_importers.cpp) -/

/-- `static_cast<int>(std::ceil(float(a) / b))` on the in-range integers of the
slice computation: the exact rational ceiling of a/b. -/
def ceilDivInt (a b : Int) : Int := -((-a).fdiv b)

/-- One iteration of the slice bounds loop: normalize the axis, skip the
"no-op" axes (`starts[i]==0 && ends[i] >= dims[axis] && steps[i]==1`),
otherwise update stride/start/end/size with negative-index clamping and the
ceiling size formula. -/
def sliceOneAxis (dims : Dims) (st : Dims × Dims × Dims × Dims)
    (startI endI stepI axisRaw : Int) : Except ErrorCode (Dims × Dims × Dims × Dims) := do
  let (sliceStart, sliceEnd, sliceSize, sliceStride) := st
  let axis ← convert_axis axisRaw dims.length
  let dimA := dims.getD axis 0
  if startI = 0 ∧ endI ≥ dimA ∧ stepI = 1 then
    pure st
  else if stepI = 0 then
    throw .kINVALID_VALUE
  else
    let sliceStride1 := sliceStride.set axis stepI
    let upperlimit := if stepI < 0 then dimA - 1 else dimA
    let lowerlimit : Int := if stepI < 0 then -1 else 0
    let startV := if startI < 0 then max (dimA + startI) lowerlimit else min startI upperlimit
    let endV := if endI < 0 then max (dimA + endI) lowerlimit else min endI upperlimit
    let sizeV := max (ceilDivInt (endV - startV) stepI) 0
    pure (sliceStart.set axis startV, sliceEnd.set axis endV, sliceSize.set axis sizeV,
          sliceStride1)

/-- The slice bounds loop over all `axes` entries, started from
`sliceStart = 0…0`, `sliceEnd = sliceSize = dims`, `sliceStride = 1…1`. -/
def sliceLoop (dims starts endsV axesV steps : List Int) :
    Except ErrorCode (Dims × Dims × Dims × Dims) :=
  (List.range axesV.length).foldlM
    (fun st i =>
      sliceOneAxis dims st (starts.getD i 0) (endsV.getD i 0) (steps.getD i 0)
        (axesV.getD i 0))
    (List.replicate dims.length 0, dims, dims, List.replicate dims.length 1)

/-- `importSlice` (builtin_op_importers.cpp), after the opset-dependent
parameter extraction: runs the bounds loop, then the test commented
"If entire slice op was a no-op, simply return the input tensor" — which
compares `sliceSize == makeDims(0)`, i.e. against the all-zero dims — then the
"Slice layer can't handle size of 0" asserts over the `axes` positions, and
finally emits the slice layer. -/
def importSlice (input : TensorOrWeights) (starts endsV axesV steps : List Int)
    (net : Net) : Net × Except ErrorCode TensorOrWeights :=
  let (net0, td) := convertToTensor input net
  let dims := td.2
  match sliceLoop dims starts endsV axesV steps with
  | .error e => (net0, .error e)
  | .ok (sliceStart, _sliceEnd, sliceSize, sliceStride) =>
      if sliceSize = List.replicate dims.length 0 then
        (net0, .ok (.tensor td.1 dims))
      else if (List.range axesV.length).any (fun i => sliceSize.getD i 0 = 0) then
        (net0, .error .kINVALID_VALUE)
      else
        let (net1, outId) := net0.add (.sliceLayer sliceStart sliceSize sliceStride) [td.1]
        (net1, .ok (.tensor outId sliceSize))

/-- C1 (code behaviour at the claim's input): for a static shape `[5]` and the
full-range parameters `starts=[0]`, `ends=[2^30]`, `axes=[0]`, `steps=[1]`,
`importSlice` does NOT return the input tensor: it emits a slice layer of
start 0, size `[5]`, stride 1 and returns that layer's fresh output — the
comment-documented no-op elision is dead because the test compares the
computed size against all-zero dims instead of the input dims. -/
theorem importSlice_full_range_emits_layer :
    importSlice (.tensor 0 [5]) [0] [2 ^ 30] [0] [1] (Net.mk [] 1)
      = (Net.mk [⟨.sliceLayer [0] [5] [1], [0], 1⟩] 2, .ok (.tensor 1 [5])) := by
  rfl

/-! ## importAveragePool: asymmetric-padding fix-up (builtin_op_importers.cpp) -/

/-- The per-dimension case split of the asymmetric-padding fix-up inside
`importAveragePool`: symmetric padding passes through; `end == beg + 1` adds
the stride to the begin-pad and records a 1-unit pre-crop; anything else hits
the `supported_form_of_asymmetric_padding_for_AveragePool = false` assert. -/
def avgPoolFixDim (beg endP stride : Int) : Except ErrorCode (Int × Int) :=
  if endP = beg then .ok (beg, 0)
  else if endP = beg + 1 then .ok (beg + stride, 1)
  else .error .kUNSUPPORTED_NODE

/-- The asymmetric-padding fix-up loop of `importAveragePool` (it runs over
the two `DimsHW` positions `d = 0, 1`): returns the adjusted begin-padding and
the post-hoc crop amounts, or fails at the first unsupported dimension. -/
def asymmetricAveragePoolFix (begPad endPad strides : Dims) :
    Except ErrorCode (Dims × Dims) := do
  let r0 ← avgPoolFixDim (begPad.getD 0 0) (endPad.getD 0 0) (strides.getD 0 0)
  let r1 ← avgPoolFixDim (begPad.getD 1 0) (endPad.getD 1 0) (strides.getD 1 0)
  pure (((begPad.set 0 r0.1).set 1 r1.1), [r0.2, r1.2])

/-- C7 counterexample: begin-pad `[1,0]` and end-pad `[0,0]` differ by exactly
one unit in the first dimension, yet the lowering fails with
UnsupportedOperator instead of padding symmetrically — the fix-up only accepts
the direction `end == beg + 1`. -/
theorem avgPoolFix_one_unit_begin_excess_fails :
    asymmetricAveragePoolFix [1, 0] [0, 0] [2, 2] = .error .kUNSUPPORTED_NODE := by
  rfl

/-- C7 (amended): for each of the two spatial dimensions handled by the
fix-up: equal begin/end pads pass through untouched; an end-pad exceeding the
begin-pad by exactly one adds the stride to the begin-pad and records a 1-unit
post-hoc crop; every other asymmetry — including a begin-pad exceeding the
end-pad by one — fails with UnsupportedOperator. -/
theorem avgPoolFix_characterization (b0 b1 e0 e1 s0 s1 : Int) :
    asymmetricAveragePoolFix [b0, b1] [e0, e1] [s0, s1]
      = if (e0 = b0 ∨ e0 = b0 + 1) ∧ (e1 = b1 ∨ e1 = b1 + 1) then
          .ok ([if e0 = b0 then b0 else b0 + s0, if e1 = b1 then b1 else b1 + s1],
               [if e0 = b0 then 0 else 1, if e1 = b1 then 0 else 1])
        else .error .kUNSUPPORTED_NODE := by
  by_cases h0e : e0 = b0
  · by_cases h1e : e1 = b1
    · simp [asymmetricAveragePoolFix, avgPoolFixDim, h0e, h1e]
      rfl
    · by_cases h1p : e1 = b1 + 1
      · simp [asymmetricAveragePoolFix, avgPoolFixDim, h0e, h1e, h1p]
        rfl
      · simp [asymmetricAveragePoolFix, avgPoolFixDim, h0e, h1e, h1p]
        rfl
  · by_cases h0p : e0 = b0 + 1
    · by_cases h1e : e1 = b1
      · simp [asymmetricAveragePoolFix, avgPoolFixDim, h0e, h0p, h1e]
        rfl
      · by_cases h1p : e1 = b1 + 1
        · simp [asymmetricAveragePoolFix, avgPoolFixDim, h0e, h0p, h1e, h1p]
          rfl
        · simp [asymmetricAveragePoolFix, avgPoolFixDim, h0e, h0p, h1e, h1p]
          rfl
    · simp [asymmetricAveragePoolFix, avgPoolFixDim, h0e, h0p]
      rfl

/-! ## importLoop (builtin_op_importers.cpp) -/

/-- The recurrence-creation loop of `importLoop`: every state input (inputs
past the first two: `NB_NON_STATE_INPUTS = 2`) is converted to a tensor and
seeds a recurrence layer; the recurrence outputs are collected (they are also
registered under the body graph's input names).  The later
`setInput(1, update)` rebinding of each recurrence to its body-update
expression rewires an existing layer and emits nothing; no claim inspects it,
so it is not tracked. -/
def addRecurrences (vs : List (Option TensorOrWeights)) (net : Net) : Net × List Nat :=
  match vs with
  | [] => (net, [])
  | v :: rest =>
      let c := convertToTensor (v.getD (.weights [] [])) net
      let r := c.1.add .recurrence [c.2.1]
      let rest2 := addRecurrences rest r.1
      (rest2.1, r.2 :: rest2.2)

/-- The state-variable output loop of `importLoop`: body output `i + 1`
(slot 0 is the discarded condition output, `NB_DISCARDED_OUTPUTS = 1`) is
looked up and converted, and each state variable becomes a `kLAST_VALUE` loop
output. -/
def addStateOutputs (idxs : List Nat) (bodyOut : Nat → TensorOrWeights)
    (stateVars : List Nat) (net : Net) : Net × List TensorOrWeights :=
  match idxs with
  | [] => (net, [])
  | i :: rest =>
      let c := convertToTensor (bodyOut (i + 1)) net
      let o := c.1.add (.loopOutput .kLAST_VALUE) [stateVars.getD i 0]
      let rest2 := addStateOutputs rest bodyOut stateVars o.1
      (rest2.1, .tensor o.2 (bodyOut (i + 1)).shape :: rest2.2)

/-- The scan-output loop of `importLoop`: each index in
`[nbStateVars + 1, nbInputs)` yields a `kCONCATENATE` (axis 0) loop output
over the corresponding body output.  Its trip-length input — slot 1, bound by
the `setInput(1, ...)` immediately after creation and modelled here at
creation — is the resolved trip-count scalar when the node supplied one, and
otherwise the output of a fresh int32 constant holding the sentinel
`MAX_SCAN_OUTPUT_LENGTH = 1024`. -/
def addScanOutputs (idxs : List Nat) (bodyOut : Nat → TensorOrWeights)
    (tripLimit : Option Nat) (net : Net) : Net × List TensorOrWeights :=
  match idxs with
  | [] => (net, [])
  | i :: rest =>
      let c := convertToTensor (bodyOut i) net
      let len : Net × Nat :=
        match tripLimit with
        | some t => (c.1, t)
        | none => c.1.add (.constant [] [1024]) []
      let o := len.1.add (.loopOutput .kCONCATENATE) [c.2.1, len.2]
      let rest2 := addScanOutputs rest bodyOut tripLimit o.1
      (rest2.1, .tensor o.2 (bodyOut i).shape :: rest2.2)

/-- The trip-specification section of `importLoop`: the loop construct
itself, then the optional trip-count input (converted to a scalar and bound as
a `kCOUNT` trip limit; the scalar is also remembered for the scan outputs) and
the optional condition input (bound as `kWHILE_NONZERO`). -/
def importLoopTrips (in0 in1 : Option TensorOrWeights) (net : Net) :
    Net × Option Nat :=
  let net0 := (net.add .loopBoundary []).1
  let trip : Net × Option Nat :=
    match in0 with
    | some v =>
        let c := convertToTensor v net0
        let s := convertToScalar c.2.1 c.1
        ((s.1.add (.tripLimit .kCOUNT) [s.2]).1, some s.2)
    | none => (net0, none)
  let net2 : Net :=
    match in1 with
    | some v =>
        let c := convertToTensor v trip.1
        let s := convertToScalar c.2.1 c.1
        (s.1.add (.tripLimit .kWHILE_NONZERO) [s.2]).1
    | none => trip.1
  (net2, trip.2)

/-- `importLoop` (builtin_op_importers.cpp).  `inputs` are the node's resolved
inputs, `none` encoding the empty optional `TensorOrWeights`;
`_nodeOutputCount` is the node's declared output count, which the source never
reads (both output loops are driven by the input count) — it is kept as a
parameter precisely so that independence from it can be stated.  `bodyOut i`
is the tensor registered for the body graph's i-th output once the recursive
`parseGraph` call has lowered the body; the recursion itself is abstracted
into this mapping, since every claim concerns only the loop boundary and its
output wiring. -/
def importLoop (inputs : List (Option TensorOrWeights)) (_nodeOutputCount : Nat)
    (bodyOut : Nat → TensorOrWeights) (net : Net) :
    Net × Except ErrorCode (List TensorOrWeights) :=
  if inputs.length < 2 then (net, .error .kINVALID_NODE)
  else
    let nbInputs := inputs.length
    let nbStateVars := nbInputs - 2
    let tr := importLoopTrips (inputs.getD 0 none) (inputs.getD 1 none) net
    let r1 := addRecurrences (inputs.drop 2) tr.1
    let st := addStateOutputs (List.range nbStateVars) bodyOut r1.2 r1.1
    let sc := addScanOutputs (List.range' (nbStateVars + 1) (nbInputs - (nbStateVars + 1)))
        bodyOut tr.2 st.1
    (sc.1, .ok (st.2 ++ sc.2))

/-- Count of loop-output layers of a given kind in a network. -/
def countLoopOutputs (k : LoopOutKind) (net : Net) : Nat :=
  net.layers.countP (fun l => decide (l.kind = .loopOutput k))

theorem countLoopOutputs_add (k : LoopOutKind) (net : Net) (kind : LayerKind)
    (ins : List Nat) :
    countLoopOutputs k ((net.add kind ins).1)
      = countLoopOutputs k net + (if kind = .loopOutput k then 1 else 0) := by
  unfold countLoopOutputs Net.add
  rw [List.countP_append]
  simp [List.countP_cons]

theorem countLoopOutputs_convertToTensor (k : LoopOutKind) (v : TensorOrWeights)
    (net : Net) :
    countLoopOutputs k ((convertToTensor v net).1) = countLoopOutputs k net := by
  cases v with
  | tensor id d => rfl
  | weights s vals => simp [convertToTensor, countLoopOutputs_add]

theorem countLoopOutputs_addRecurrences (k : LoopOutKind)
    (vs : List (Option TensorOrWeights)) (net : Net) :
    countLoopOutputs k ((addRecurrences vs net).1) = countLoopOutputs k net ∧
    (addRecurrences vs net).2.length = vs.length := by
  induction vs generalizing net with
  | nil => simp [addRecurrences]
  | cons v rest ih =>
    simp only [addRecurrences, List.length_cons]
    constructor
    · rw [(ih _).1, countLoopOutputs_add, countLoopOutputs_convertToTensor]
      simp
    · rw [(ih _).2]

theorem countLoopOutputs_addStateOutputs (k : LoopOutKind) (idxs : List Nat)
    (bodyOut : Nat → TensorOrWeights) (stateVars : List Nat) (net : Net) :
    countLoopOutputs k ((addStateOutputs idxs bodyOut stateVars net).1)
      = countLoopOutputs k net
        + idxs.length * (if LayerKind.loopOutput .kLAST_VALUE = .loopOutput k then 1 else 0) ∧
    (addStateOutputs idxs bodyOut stateVars net).2.length = idxs.length := by
  induction idxs generalizing net with
  | nil => simp [addStateOutputs]
  | cons i rest ih =>
    simp only [addStateOutputs, List.length_cons]
    constructor
    · rw [(ih _).1, countLoopOutputs_add, countLoopOutputs_convertToTensor]
      ring
    · rw [(ih _).2]

theorem countLoopOutputs_addScanOutputs (k : LoopOutKind) (idxs : List Nat)
    (bodyOut : Nat → TensorOrWeights) (tripLimit : Option Nat) (net : Net) :
    countLoopOutputs k ((addScanOutputs idxs bodyOut tripLimit net).1)
      = countLoopOutputs k net
        + idxs.length * (if LayerKind.loopOutput .kCONCATENATE = .loopOutput k then 1 else 0) ∧
    (addScanOutputs idxs bodyOut tripLimit net).2.length = idxs.length := by
  induction idxs generalizing net with
  | nil => simp [addScanOutputs]
  | cons i rest ih =>
    simp only [addScanOutputs, List.length_cons]
    constructor
    · cases tripLimit with
      | some t =>
          rw [(ih _).1, countLoopOutputs_add, countLoopOutputs_convertToTensor]
          ring
      | none =>
          rw [(ih _).1, countLoopOutputs_add, countLoopOutputs_add,
            countLoopOutputs_convertToTensor]
          simp only [show (LayerKind.constant [] [1024] = .loopOutput k) = False by simp]
          ring_nf
          simp
    · cases tripLimit with
      | some t => rw [(ih _).2]
      | none => rw [(ih _).2]

theorem addRecurrences_len (vs : List (Option TensorOrWeights)) (net : Net) :
    (addRecurrences vs net).2.length = vs.length :=
  (countLoopOutputs_addRecurrences .kCONCATENATE vs net).2

theorem addStateOutputs_len (idxs : List Nat) (bodyOut : Nat → TensorOrWeights)
    (stateVars : List Nat) (net : Net) :
    (addStateOutputs idxs bodyOut stateVars net).2.length = idxs.length :=
  (countLoopOutputs_addStateOutputs .kCONCATENATE idxs bodyOut stateVars net).2

theorem addScanOutputs_len (idxs : List Nat) (bodyOut : Nat → TensorOrWeights)
    (tripLimit : Option Nat) (net : Net) :
    (addScanOutputs idxs bodyOut tripLimit net).2.length = idxs.length :=
  (countLoopOutputs_addScanOutputs .kCONCATENATE idxs bodyOut tripLimit net).2

theorem countLoopOutputs_convertToScalar (k : LoopOutKind) (t : Nat) (net : Net) :
    countLoopOutputs k ((convertToScalar t net).1) = countLoopOutputs k net := by
  simp [convertToScalar, countLoopOutputs_add]

theorem countLoopOutputs_importLoopTrips (k : LoopOutKind)
    (in0 in1 : Option TensorOrWeights) (net : Net) :
    countLoopOutputs k ((importLoopTrips in0 in1 net).1) = countLoopOutputs k net := by
  unfold importLoopTrips
  cases in0 <;> cases in1 <;>
    simp [countLoopOutputs_add, countLoopOutputs_convertToTensor,
      countLoopOutputs_convertToScalar]

/-- C5: a generic Loop node with K >= 2 inputs yields exactly K - 1 outputs —
K - 2 last-value outputs (one per state variable) plus exactly one
concatenation scan output — independently of the node's declared output
count. -/
theorem importLoop_output_arity (inputs : List (Option TensorOrWeights))
    (n1 n2 : Nat) (bodyOut : Nat → TensorOrWeights) (net : Net)
    (hK : 2 ≤ inputs.length) :
    ∃ outs, (importLoop inputs n1 bodyOut net).2 = .ok outs ∧
      outs.length = inputs.length - 1 ∧
      importLoop inputs n1 bodyOut net = importLoop inputs n2 bodyOut net ∧
      countLoopOutputs .kCONCATENATE (importLoop inputs n1 bodyOut net).1
        = countLoopOutputs .kCONCATENATE net + 1 ∧
      countLoopOutputs .kLAST_VALUE (importLoop inputs n1 bodyOut net).1
        = countLoopOutputs .kLAST_VALUE net + (inputs.length - 2) := by
  have hlt : ¬ inputs.length < 2 := by omega
  have hone : inputs.length - (inputs.length - 2 + 1) = 1 := by omega
  unfold importLoop
  rw [if_neg hlt]
  refine ⟨_, rfl, ?_, rfl, ?_, ?_⟩
  · rw [List.length_append, addStateOutputs_len, addScanOutputs_len,
      List.length_range, List.length_range', hone]
    omega
  · rw [(countLoopOutputs_addScanOutputs _ _ _ _ _).1,
      (countLoopOutputs_addStateOutputs _ _ _ _ _).1,
      (countLoopOutputs_addRecurrences _ _ _).1,
      countLoopOutputs_importLoopTrips, List.length_range', hone]
    simp
  · rw [(countLoopOutputs_addScanOutputs _ _ _ _ _).1,
      (countLoopOutputs_addStateOutputs _ _ _ _ _).1,
      (countLoopOutputs_addRecurrences _ _ _).1,
      countLoopOutputs_importLoopTrips, List.length_range]
    simp

theorem Net.mem_add_of_mem {net : Net} {l : Layer} (kind : LayerKind) (ins : List Nat)
    (h : l ∈ net.layers) : l ∈ ((net.add kind ins).1).layers := by
  simp only [Net.add, List.mem_append]
  exact Or.inl h

theorem Net.self_mem_add (net : Net) (kind : LayerKind) (ins : List Nat) :
    Layer.mk kind ins net.nextId ∈ ((net.add kind ins).1).layers := by
  simp [Net.add]

theorem Net.nextId_le_add (net : Net) (kind : LayerKind) (ins : List Nat) :
    net.nextId ≤ ((net.add kind ins).1).nextId :=
  Nat.le_succ _

theorem mem_convertToTensor {net : Net} {l : Layer} (v : TensorOrWeights)
    (h : l ∈ net.layers) : l ∈ ((convertToTensor v net).1).layers := by
  cases v with
  | tensor id d => exact h
  | weights s vals => exact Net.mem_add_of_mem _ _ h

theorem nextId_le_convertToTensor (v : TensorOrWeights) (net : Net) :
    net.nextId ≤ ((convertToTensor v net).1).nextId := by
  cases v with
  | tensor id d => exact Nat.le_refl _
  | weights s vals => exact Net.nextId_le_add _ _ _

theorem mem_convertToScalar {net : Net} {l : Layer} (t : Nat)
    (h : l ∈ net.layers) : l ∈ ((convertToScalar t net).1).layers :=
  Net.mem_add_of_mem _ _ h

theorem nextId_le_convertToScalar (t : Nat) (net : Net) :
    net.nextId ≤ ((convertToScalar t net).1).nextId :=
  Net.nextId_le_add _ _ _

theorem mem_importLoopTrips {net : Net} {l : Layer} (in0 in1 : Option TensorOrWeights)
    (h : l ∈ net.layers) : l ∈ ((importLoopTrips in0 in1 net).1).layers := by
  unfold importLoopTrips
  cases in0 <;> cases in1 <;>
    simp only [] <;>
    repeat first
      | exact h
      | apply Net.mem_add_of_mem
      | apply mem_convertToTensor
      | apply mem_convertToScalar

theorem nextId_le_importLoopTrips (in0 in1 : Option TensorOrWeights) (net : Net) :
    net.nextId ≤ ((importLoopTrips in0 in1 net).1).nextId := by
  unfold importLoopTrips
  have hstep : ∀ (v : TensorOrWeights) (k : LayerKind) (m : Net),
      m.nextId ≤ ((convertToScalar (convertToTensor v m).2.1 (convertToTensor v m).1).1.add
          k [(convertToScalar (convertToTensor v m).2.1 (convertToTensor v m).1).2]).1.nextId := by
    intro v k m
    exact Nat.le_trans (nextId_le_convertToTensor v m)
      (Nat.le_trans (nextId_le_convertToScalar _ _) (Net.nextId_le_add _ _ _))
  cases in0 with
  | none =>
    cases in1 with
    | none => exact Net.nextId_le_add _ _ _
    | some w => exact Nat.le_trans (Net.nextId_le_add _ _ _) (hstep w _ _)
  | some v =>
    cases in1 with
    | none => exact Nat.le_trans (Net.nextId_le_add _ _ _) (hstep v _ _)
    | some w =>
      exact Nat.le_trans (Net.nextId_le_add _ _ _)
        (Nat.le_trans (hstep v _ _) (hstep w _ _))

theorem mem_addRecurrences {net : Net} {l : Layer} (vs : List (Option TensorOrWeights))
    (h : l ∈ net.layers) : l ∈ ((addRecurrences vs net).1).layers := by
  induction vs generalizing net with
  | nil => exact h
  | cons v rest ih =>
    simp only [addRecurrences]
    exact ih (Net.mem_add_of_mem _ _ (mem_convertToTensor _ h))

theorem nextId_le_addRecurrences (vs : List (Option TensorOrWeights)) (net : Net) :
    net.nextId ≤ ((addRecurrences vs net).1).nextId := by
  induction vs generalizing net with
  | nil => exact Nat.le_refl _
  | cons v rest ih =>
    simp only [addRecurrences]
    exact Nat.le_trans (Nat.le_trans (nextId_le_convertToTensor _ _)
      (Net.nextId_le_add _ _ _)) (ih _)

theorem mem_addStateOutputs {net : Net} {l : Layer} (idxs : List Nat)
    (bodyOut : Nat → TensorOrWeights) (stateVars : List Nat)
    (h : l ∈ net.layers) : l ∈ ((addStateOutputs idxs bodyOut stateVars net).1).layers := by
  induction idxs generalizing net with
  | nil => exact h
  | cons i rest ih =>
    simp only [addStateOutputs]
    exact ih (Net.mem_add_of_mem _ _ (mem_convertToTensor _ h))

theorem nextId_le_addStateOutputs (idxs : List Nat) (bodyOut : Nat → TensorOrWeights)
    (stateVars : List Nat) (net : Net) :
    net.nextId ≤ ((addStateOutputs idxs bodyOut stateVars net).1).nextId := by
  induction idxs generalizing net with
  | nil => exact Nat.le_refl _
  | cons i rest ih =>
    simp only [addStateOutputs]
    exact Nat.le_trans (Nat.le_trans (nextId_le_convertToTensor _ _)
      (Net.nextId_le_add _ _ _)) (ih _)

theorem mem_addScanOutputs {net : Net} {l : Layer} (idxs : List Nat)
    (bodyOut : Nat → TensorOrWeights) (tripLimit : Option Nat)
    (h : l ∈ net.layers) : l ∈ ((addScanOutputs idxs bodyOut tripLimit net).1).layers := by
  induction idxs generalizing net with
  | nil => exact h
  | cons i rest ih =>
    simp only [addScanOutputs]
    cases tripLimit with
    | some t =>
        exact ih (Net.mem_add_of_mem _ _ (mem_convertToTensor _ h))
    | none =>
        exact ih (Net.mem_add_of_mem _ _ (Net.mem_add_of_mem _ _ (mem_convertToTensor _ h)))

/-- The trip-count scalar resolved by the trip section when input 0 is
present: it feeds a `kCOUNT` trip-limit layer and is returned for the scan
outputs. -/
theorem importLoopTrips_some_spec (v : TensorOrWeights) (in1 : Option TensorOrWeights)
    (net : Net) :
    ∃ t o1, (importLoopTrips (some v) in1 net).2 = some t ∧
      Layer.mk (.tripLimit .kCOUNT) [t] o1 ∈ ((importLoopTrips (some v) in1 net).1).layers := by
  unfold importLoopTrips
  cases in1 with
  | none =>
      exact ⟨_, _, rfl, Net.self_mem_add _ _ _⟩
  | some w =>
      exact ⟨_, _, rfl, Net.mem_add_of_mem _ _ (mem_convertToScalar _
        (mem_convertToTensor _ (Net.self_mem_add _ _ _)))⟩

theorem importLoopTrips_none_spec (in1 : Option TensorOrWeights) (net : Net) :
    (importLoopTrips none in1 net).2 = none := by
  unfold importLoopTrips
  cases in1 <;> rfl

/-- A single scan output with a resolved trip count: the concatenate loop
output's slot-1 input is the trip scalar, and its output id is fresh. -/
theorem addScanOutputs_single_some (i : Nat) (bodyOut : Nat → TensorOrWeights)
    (t : Nat) (net : Net) :
    ∃ s o2, Layer.mk (.loopOutput .kCONCATENATE) [s, t] o2
        ∈ ((addScanOutputs [i] bodyOut (some t) net).1).layers ∧
      net.nextId ≤ o2 :=
  ⟨_, _, Net.self_mem_add _ _ _, nextId_le_convertToTensor _ _⟩

/-- A single scan output with no trip count: a fresh constant layer holding
1024 is created and bound as the concatenate loop output's slot-1 input. -/
theorem addScanOutputs_single_none (i : Nat) (bodyOut : Nat → TensorOrWeights)
    (net : Net) :
    ∃ s c o2, Layer.mk (.constant [] [1024]) [] c
        ∈ ((addScanOutputs [i] bodyOut none net).1).layers ∧
      Layer.mk (.loopOutput .kCONCATENATE) [s, c] o2
        ∈ ((addScanOutputs [i] bodyOut none net).1).layers ∧
      net.nextId ≤ c :=
  ⟨_, _, _, Net.mem_add_of_mem _ _ (Net.self_mem_add _ _ _),
    Net.self_mem_add _ _ _, nextId_le_convertToTensor _ _⟩

/-- C4: the scan output's trip-length binding in `importLoop`.  When the node
supplies a trip count (input 0 present), the emitted `kCONCATENATE` loop
output has its length input (slot 1) bound to the very scalar that feeds the
`kCOUNT` trip limit; when input 0 is absent, the length input is the output of
a fresh constant layer holding the sentinel 1024. -/
theorem importLoop_scan_trip_binding (inputs : List (Option TensorOrWeights))
    (nOut : Nat) (bodyOut : Nat → TensorOrWeights) (net : Net)
    (hK : 2 ≤ inputs.length) :
    (∀ v, inputs.getD 0 none = some v →
        ∃ s t o1 o2,
          Layer.mk (.tripLimit .kCOUNT) [t] o1
              ∈ ((importLoop inputs nOut bodyOut net).1).layers ∧
          Layer.mk (.loopOutput .kCONCATENATE) [s, t] o2
              ∈ ((importLoop inputs nOut bodyOut net).1).layers ∧
          net.nextId ≤ o2) ∧
    (inputs.getD 0 none = none →
        ∃ s c o2,
          Layer.mk (.constant [] [1024]) [] c
              ∈ ((importLoop inputs nOut bodyOut net).1).layers ∧
          Layer.mk (.loopOutput .kCONCATENATE) [s, c] o2
              ∈ ((importLoop inputs nOut bodyOut net).1).layers ∧
          net.nextId ≤ c) := by
  have hlt : ¬ inputs.length < 2 := by omega
  have hone : inputs.length - (inputs.length - 2 + 1) = 1 := by omega
  unfold importLoop
  rw [if_neg hlt]
  simp only [hone, List.range'_one]
  constructor
  · intro v hv
    rw [hv]
    obtain ⟨t, o1, ht, hmem1⟩ := importLoopTrips_some_spec v (inputs.getD 1 none) net
    rw [ht]
    obtain ⟨s, o2, hm2, hfresh⟩ := addScanOutputs_single_some (inputs.length - 2 + 1) bodyOut t
      ((addStateOutputs (List.range (inputs.length - 2)) bodyOut
        (addRecurrences (inputs.drop 2)
          (importLoopTrips (some v) (inputs.getD 1 none) net).1).2
        (addRecurrences (inputs.drop 2)
          (importLoopTrips (some v) (inputs.getD 1 none) net).1).1).1)
    refine ⟨s, t, o1, o2, ?_, hm2, ?_⟩
    · exact mem_addScanOutputs _ _ _ (mem_addStateOutputs _ _ _ (mem_addRecurrences _ hmem1))
    · exact Nat.le_trans (nextId_le_importLoopTrips _ _ _)
        (Nat.le_trans (nextId_le_addRecurrences _ _)
          (Nat.le_trans (nextId_le_addStateOutputs _ _ _ _) hfresh))
  · intro hv
    rw [hv, importLoopTrips_none_spec]
    obtain ⟨s, c, o2, hmc, hm2, hfresh⟩ := addScanOutputs_single_none (inputs.length - 2 + 1)
      bodyOut
      ((addStateOutputs (List.range (inputs.length - 2)) bodyOut
        (addRecurrences (inputs.drop 2)
          (importLoopTrips none (inputs.getD 1 none) net).1).2
        (addRecurrences (inputs.drop 2)
          (importLoopTrips none (inputs.getD 1 none) net).1).1).1)
    refine ⟨s, c, o2, hmc, hm2, ?_⟩
    exact Nat.le_trans (nextId_le_importLoopTrips _ _ _)
      (Nat.le_trans (nextId_le_addRecurrences _ _)
        (Nat.le_trans (nextId_le_addStateOutputs _ _ _ _) hfresh))

theorem importLoop_scan_trip_binding_witness :
    ∃ s t o1 o2,
      Layer.mk (.tripLimit .kCOUNT) [t] o1
          ∈ ((importLoop [some (.tensor 0 [1]), none, some (.tensor 1 [2])] 5
              (fun _ => .tensor 2 [2]) (Net.mk [] 3)).1).layers ∧
      Layer.mk (.loopOutput .kCONCATENATE) [s, t] o2
          ∈ ((importLoop [some (.tensor 0 [1]), none, some (.tensor 1 [2])] 5
              (fun _ => .tensor 2 [2]) (Net.mk [] 3)).1).layers ∧
      (Net.mk [] 3).nextId ≤ o2 :=
  (importLoop_scan_trip_binding [some (.tensor 0 [1]), none, some (.tensor 1 [2])] 5
      (fun _ => .tensor 2 [2]) (Net.mk [] 3) (by decide)).1 (.tensor 0 [1]) rfl

theorem importLoop_output_arity_witness :
    2 ≤ ([some (.tensor 0 [1]), none, some (.tensor 1 [2])]
          : List (Option TensorOrWeights)).length ∧
    ∃ outs,
      (importLoop [some (.tensor 0 [1]), none, some (.tensor 1 [2])] 5
          (fun _ => .tensor 2 [2]) (Net.mk [] 3)).2 = .ok outs ∧
      outs.length = 2 ∧
      countLoopOutputs .kCONCATENATE
          (importLoop [some (.tensor 0 [1]), none, some (.tensor 1 [2])] 5
            (fun _ => .tensor 2 [2]) (Net.mk [] 3)).1 = 1 := by
  have h := importLoop_output_arity [some (.tensor 0 [1]), none, some (.tensor 1 [2])]
    5 7 (fun _ => .tensor 2 [2]) (Net.mk [] 3) (by decide)
  obtain ⟨outs, h1, h2, -, h4, -⟩ := h
  exact ⟨by decide, outs, h1, by simpa using h2, by simpa using h4⟩

/-! ## importLSTM (builtin_op_importers.cpp) -/

/-- `nvinfer1::ActivationType` values used by the LSTM importer. -/
inductive ActKind where
  | kSIGMOID
  | kTANH
  | kRELU
  | kELU
  | kCLIP
  deriving DecidableEq, Repr

/-- Modelled from the spec (§4.4; helper not among the given sources): the
per-activation default alpha parameter (0 for the LSTM defaults
sigmoid/tanh). -/
def getActivationDefaultAlpha (_a : ActKind) : Rat := 0

/-- Modelled from the spec (§4.4; helper not among the given sources): the
per-activation default beta parameter (0 for the LSTM defaults
sigmoid/tanh). -/
def getActivationDefaultBeta (_a : ActKind) : Rat := 0

/-- The attributes consulted by `importLSTM`, optional fields modelling
attribute presence; the importer applies the source defaults
(`direction = "forward"`, `input_forget = 0`, `clip = -1` — the sentinel for
"no clipping", since a clip threshold cannot be negative). -/
structure LstmAttrs where
  direction : String := "forward"
  hidden_size : Int := 1
  input_forget : Option Int := none
  clip : Option Rat := none
  activations : Option (List ActKind) := none
  activation_alpha : Option (List Rat) := none
  activation_beta : Option (List Rat) := none
  deriving DecidableEq, Repr

/-- The fixed cell-equation body of `importLSTM` — everything after the three
rejection guards — as the source's layer-emission skeleton in statement
order: X/W/R tensor conversion, the bidirectional activation-agreement
guards, bias combination, the shape-arithmetic initial-state construction,
the sequence loop with its iterators and recurrences, the fused
matrix-multiply and per-gate slices/activations, and the three loop outputs.
Tensor contents/shapes and the exact wiring of the cell-equation layers are
tracked loosely; the claims about LSTM concern only that the guards fire
before any of these emissions. -/
def lstmEmitBody (attrs : LstmAttrs) (inputs : List (Option TensorOrWeights))
    (net : Net) : Net × Except ErrorCode (List TensorOrWeights) :=
  let numDirections : Nat := if attrs.direction = "bidirectional" then 2 else 1
  let cIn := convertToTensor ((inputs.getD 0 none).getD (.weights [] [])) net
  let cW := convertToTensor ((inputs.getD 1 none).getD (.weights [] [])) cIn.1
  let cR := convertToTensor ((inputs.getD 2 none).getD (.weights [] [])) cW.1
  let defaultActs : List ActKind :=
    if numDirections = 2 then [.kSIGMOID, .kTANH, .kTANH, .kSIGMOID, .kTANH, .kTANH]
    else [.kSIGMOID, .kTANH, .kTANH]
  let activations := attrs.activations.getD defaultActs
  let givenAlphas := attrs.activation_alpha.getD []
  let activationAlphas :=
    givenAlphas ++ (activations.drop givenAlphas.length).map getActivationDefaultAlpha
  let givenBetas := attrs.activation_beta.getD []
  let activationBetas :=
    givenBetas ++ (activations.drop givenBetas.length).map getActivationDefaultBeta
  if numDirections = 2 ∧ activations.take 3 ≠ (activations.drop 3).take 3 then
    (cR.1, .error .kUNSUPPORTED_NODE)
  else if numDirections = 2 ∧ activationAlphas.take 3 ≠ (activationAlphas.drop 3).take 3 then
    (cR.1, .error .kUNSUPPORTED_NODE)
  else if numDirections = 2 ∧ activationBetas.take 3 ≠ (activationBetas.drop 3).take 3 then
    (cR.1, .error .kUNSUPPORTED_NODE)
  else
    let hasBias := inputs.length > 3 ∧ (inputs.getD 3 none).isSome
    let b :=
      if hasBias then
        let cB := convertToTensor ((inputs.getD 3 none).getD (.weights [] [])) cR.1
        let sh := cB.1.add .shuffle [cB.2.1]
        (sh.1.add .reduce [sh.2]).1
      else cR.1
    let k1 := b.add (.constant [1] [(numDirections : Int)]) []
    let k2 := k1.1.add (.constant [1] [attrs.hidden_size]) []
    let ax := k2.1.add .shapeArith [cIn.2.1]
    let gateShape := ax.1.add .concat [k1.2, ax.2, k2.2]
    let ih :=
      if inputs.length > 5 ∧ (inputs.getD 5 none).isSome then
        convertToTensor ((inputs.getD 5 none).getD (.weights [] [])) gateShape.1
      else
        let z := gateShape.1.add (.constant [1] [0]) []
        let cs := z.1.add .shapeArith [z.2, gateShape.2]
        (cs.1, (cs.2, ([] : Dims)))
    let ic :=
      if inputs.length > 6 ∧ (inputs.getD 6 none).isSome then
        convertToTensor ((inputs.getD 6 none).getD (.weights [] [])) ih.1
      else
        let z := ih.1.add (.constant [1] [0]) []
        let cs := z.1.add .shapeArith [z.2, gateShape.2]
        (cs.1, (cs.2, ([] : Dims)))
    let lp := ic.1.add .loopBoundary []
    let tl := lp.1.add .shapeArith [cIn.2.1]
    let tlim := tl.1.add (.tripLimit .kCOUNT) [tl.2]
    let iter : Net × Except ErrorCode Nat :=
      if attrs.direction = "forward" then
        let it := tlim.1.add (.iterator false) [cIn.2.1]
        let un := it.1.add .shuffle [it.2]
        (un.1, .ok un.2)
      else if attrs.direction = "reverse" then
        let it := tlim.1.add (.iterator true) [cIn.2.1]
        let un := it.1.add .shuffle [it.2]
        (un.1, .ok un.2)
      else if attrs.direction = "bidirectional" then
        let itf := tlim.1.add (.iterator false) [cIn.2.1]
        let itr := itf.1.add (.iterator true) [cIn.2.1]
        let unf := itr.1.add .shuffle [itf.2]
        let unr := unf.1.add .shuffle [itr.2]
        let cc := unr.1.add .concat [unf.2, unr.2]
        (cc.1, .ok cc.2)
      else (tlim.1, .error .kINVALID_NODE)
    match iter with
    | (n, .error e) => (n, .error e)
    | (n, .ok xt) =>
      let hS := n.add .recurrence [ih.2.1]
      let cS := hS.1.add .recurrence [ic.2.1]
      let m1 := cS.1.add .matrixMultiply [xt, cW.2.1]
      let m2 := m1.1.add .matrixMultiply [hS.2, cR.2.1]
      let s1 := m2.1.add (.elementwise .kSUM) [m1.2, m2.2]
      let inter : Net × Nat :=
        if hasBias then s1.1.add (.elementwise .kSUM) [s1.2] else s1
      -- c(t) gate: isolateGate(intermediate, 3) then the g activation
      let st3 := inter.1.add (.constant [3] [0, 0, 3 * attrs.hidden_size]) []
      let iso3 := st3.1.add (.sliceLayer [0, 0, 0] [0, 0, 0] [1, 1, 1])
        [inter.2, st3.2, gateShape.2]
      let gAct := iso3.1.add .activation [iso3.2]
      -- iof gates: isolateIOF (slice over the first three gates) then f activation
      let st0 := gAct.1.add (.constant [3] [0, 0, 0]) []
      let three := st0.1.add (.constant [3] [1, 1, 3]) []
      let threeShape := three.1.add (.elementwise .kPROD) [gateShape.2, three.2]
      let isoIOF := threeShape.1.add (.sliceLayer [0, 0, 0] [0, 0, 0] [1, 1, 1])
        [inter.2, st0.2, threeShape.2]
      let fAct := isoIOF.1.add .activation [isoIOF.2]
      -- i(t), o(t), f(t) slices
      let stI := fAct.1.add (.constant [3] [0, 0, 0]) []
      let isoI := stI.1.add (.sliceLayer [0, 0, 0] [0, 0, 0] [1, 1, 1])
        [fAct.2, stI.2, gateShape.2]
      let stO := isoI.1.add (.constant [3] [0, 0, attrs.hidden_size]) []
      let isoO := stO.1.add (.sliceLayer [0, 0, 0] [0, 0, 0] [1, 1, 1])
        [fAct.2, stO.2, gateShape.2]
      let stF := isoO.1.add (.constant [3] [0, 0, 2 * attrs.hidden_size]) []
      let isoF := stF.1.add (.sliceLayer [0, 0, 0] [0, 0, 0] [1, 1, 1])
        [fAct.2, stF.2, gateShape.2]
      -- C(t) = f(t) . C(t-1) + i(t) . c(t); rebinds the cell recurrence
      let p1 := isoF.1.add (.elementwise .kPROD) [isoF.2, cS.2]
      let p2 := p1.1.add (.elementwise .kPROD) [isoI.2, gAct.2]
      let ct := p2.1.add (.elementwise .kSUM) [p1.2, p2.2]
      -- H(t) = o(t) . h(C(t)); rebinds the hidden recurrence
      let hAct := ct.1.add .activation [ct.2]
      let ht := hAct.1.add (.elementwise .kPROD) [isoO.2, hAct.2]
      -- Y, Yh, Yc loop outputs (the scan output's length input is the
      -- sequence-axis length)
      let ylen := ht.1.add .shapeArith [cIn.2.1]
      let y := ylen.1.add (.loopOutput .kCONCATENATE) [ht.2, ylen.2]
      let yh := y.1.add (.loopOutput .kLAST_VALUE) [hS.2]
      let yc := yh.1.add (.loopOutput .kLAST_VALUE) [cS.2]
      (yc.1, .ok [.tensor y.2 [], .tensor yh.2 [], .tensor yc.2 []])

/-- `importLSTM` (builtin_op_importers.cpp): attribute extraction with the
source defaults, then — before anything touches the network — the three
rejection guards: coupled input/forget (`input_forget != 0`), a present
peephole input (slot 7), and clipping (`clip != -1`); then the fixed
cell-equation body. -/
def importLSTM (attrs : LstmAttrs) (inputs : List (Option TensorOrWeights))
    (net : Net) : Net × Except ErrorCode (List TensorOrWeights) :=
  let inputForget := attrs.input_forget.getD 0
  let clip := attrs.clip.getD (-1)
  if inputForget ≠ 0 then (net, .error .kUNSUPPORTED_NODE)
  else if inputs.length > 7 ∧ (inputs.getD 7 none).isSome then
    (net, .error .kUNSUPPORTED_NODE)
  else if clip ≠ -1 then (net, .error .kUNSUPPORTED_NODE)
  else lstmEmitBody attrs inputs net

/-- C3: an LSTM node with `input_forget = 1` fails with UnsupportedOperator
and leaves the network exactly as it was — no backend layer has been emitted
for the node; likewise a present peephole input (slot 7) or a clip attribute
carrying a valid (non-negative) threshold causes the same early failure with
no emission. -/
theorem importLSTM_early_rejects (attrs : LstmAttrs)
    (inputs : List (Option TensorOrWeights)) (net : Net)
    (h : attrs.input_forget.getD 0 = 1
       ∨ (inputs.length > 7 ∧ (inputs.getD 7 none).isSome)
       ∨ 0 ≤ attrs.clip.getD (-1)) :
    importLSTM attrs inputs net = (net, .error .kUNSUPPORTED_NODE) := by
  unfold importLSTM
  rcases h with h | h | h
  · rw [if_pos (by omega)]
  · by_cases h1 : attrs.input_forget.getD 0 ≠ 0
    · rw [if_pos h1]
    · rw [if_neg h1, if_pos h]
  · by_cases h1 : attrs.input_forget.getD 0 ≠ 0
    · rw [if_pos h1]
    · rw [if_neg h1]
      by_cases h2 : inputs.length > 7 ∧ (inputs.getD 7 none).isSome
      · rw [if_pos h2]
      · rw [if_neg h2,
          if_pos (show attrs.clip.getD (-1) ≠ -1 from by
            intro hc
            rw [hc] at h
            norm_num at h)]

theorem importLSTM_early_rejects_witness :
    importLSTM { input_forget := some 1 } [] Net.empty
      = (Net.empty, .error .kUNSUPPORTED_NODE) ∧
    importLSTM { clip := some 3 } [] Net.empty
      = (Net.empty, .error .kUNSUPPORTED_NODE) :=
  ⟨importLSTM_early_rejects { input_forget := some 1 } [] Net.empty (Or.inl rfl),
   importLSTM_early_rejects { clip := some 3 } [] Net.empty
     (Or.inr (Or.inr (by norm_num)))⟩

/-! ## importTranspose (builtin_op_importers.cpp) -/

/-- Number of elements of a (non-negative) shape. -/
def prodShape : Dims → Nat
  | [] => 1
  | d :: rest => d.toNat * prodShape rest

/-- Row-major unflattening of a linear position into a multi-index. -/
def unflattenIdx : Dims → Nat → List Nat
  | [], _ => []
  | _ :: rest, k => (k / prodShape rest) :: unflattenIdx rest (k % prodShape rest)

/-- Row-major flattening of a multi-index. -/
def flattenIdx : Dims → List Nat → Nat
  | _ :: rest, i :: is => i * prodShape rest + flattenIdx rest is
  | _, _ => 0

/-- Modelled from the spec (§8 round-trip property; the `transposeWeights`
helper lives in onnx2trt_utils.cpp, outside the given sources): the output
shape is the permutation of the input shape, and the output buffer is the
mathematical transpose — the value at an output multi-index is the input
value at the index obtained by routing it back through the permutation. -/
def transposeWeights (shape : Dims) (values : List Int) (perm : List Nat) :
    Dims × List Int :=
  let newShape : Dims := perm.map (fun p => shape.getD p 0)
  let newValues := (List.range (prodShape newShape)).map (fun k =>
    let outIdx := unflattenIdx newShape k
    let inIdx := (List.range shape.length).map (fun e => outIdx.getD (perm.indexOf e) 0)
    values.getD (flattenIdx shape inIdx) 0)
  (newShape, newValues)

/-- `importTranspose` (builtin_op_importers.cpp): rank guard against
`Dims::MAX_DIMS = 8`, default permutation reversing the dims; a tensor input
goes through `transpose_tensor` (one shuffle layer carrying either the
transpose or the equivalent reshape); a weights input is constant-folded via
`transposeWeights` into a fresh weights value with no layer emitted. -/
def importTranspose (input : TensorOrWeights) (permAttr : Option (List Nat))
    (net : Net) : Net × Except ErrorCode TensorOrWeights :=
  let ndim := input.shape.length
  if ndim > 8 then (net, .error .kUNSUPPORTED_NODE)
  else
    let default_perm := (List.range ndim).map (fun i => ndim - 1 - i)
    let perm := permAttr.getD default_perm
    match input with
    | .tensor id dims =>
        let s := net.add .shuffle [id]
        (s.1, .ok (.tensor s.2 (perm.map (fun p => dims.getD p 0))))
    | .weights shape vals =>
        let w := transposeWeights shape vals perm
        (net, .ok (.weights w.1 w.2))

theorem getD_map_range (n : Nat) (f : Nat → Int) (k : Nat) (hk : k < n) :
    ((List.range n).map f).getD k 0 = f k := by
  rw [List.getD_eq_getElem _ _ (by simpa using hk)]
  simp

/-- C8: lowering Transpose with permutation `[1,0]` on a weights-kind value of
shape `[r, c]` emits no backend layer and returns a weights-kind value of the
permuted shape `[c, r]` whose buffer is the mathematical transpose: the
row-major entry at `(i, j)` of the output equals the entry at `(j, i)` of the
input buffer. -/
theorem importTranspose_weights_folds (r c : Nat) (vals : List Int) (net : Net) :
    importTranspose (.weights [(r : Int), (c : Int)] vals) (some [1, 0]) net
      = (net, .ok (.weights [(c : Int), (r : Int)]
          (transposeWeights [(r : Int), (c : Int)] vals [1, 0]).2)) ∧
    (transposeWeights [(r : Int), (c : Int)] vals [1, 0]).2.length = c * r ∧
    (∀ i j, i < c → j < r →
      (transposeWeights [(r : Int), (c : Int)] vals [1, 0]).2.getD (i * r + j) 0
        = vals.getD (j * c + i) 0) := by
  have hshape : (transposeWeights [(r : Int), (c : Int)] vals [1, 0]).1
      = [(c : Int), (r : Int)] := by
    simp [transposeWeights]
  have hprod : prodShape [(c : Int), (r : Int)] = c * r := by
    simp [prodShape]
  refine ⟨?_, ?_, ?_⟩
  · unfold importTranspose
    rw [if_neg (by simp [TensorOrWeights.shape])]
    simp only [Option.getD_some]
    rw [Prod.mk.injEq]
    refine ⟨rfl, ?_⟩
    rw [hshape]
  · show ((List.range (prodShape ((transposeWeights [(r : Int), (c : Int)] vals [1, 0]).1))).map
        _).length = c * r
    rw [hshape, hprod]
    simp [transposeWeights, hshape, hprod]
  · intro i j hi hj
    have hr : 0 < r := by omega
    have hlt : i * r + j < c * r := by
      calc i * r + j < i * r + r := by omega
        _ = (i + 1) * r := by ring
        _ ≤ c * r := Nat.mul_le_mul_right r (by omega)
    have hpr : prodShape [(r : Int)] = r := by simp [prodShape]
    have hdiv : (i * r + j) / r = i := by
      rw [Nat.add_comm, Nat.add_mul_div_right _ _ hr, Nat.div_eq_of_lt hj, Nat.zero_add]
    have hmod : (i * r + j) % r = j := by
      rw [Nat.add_comm, Nat.add_mul_mod_self_right, Nat.mod_eq_of_lt hj]
    have houtIdx : unflattenIdx [(c : Int), (r : Int)] (i * r + j) = [i, j] := by
      simp [unflattenIdx, hpr, hdiv, hmod, prodShape]
    have hrange2 : List.range 2 = [0, 1] := rfl
    have hinIdx : (List.range 2).map
        (fun e => (unflattenIdx [(c : Int), (r : Int)] (i * r + j)).getD
          (([1, 0] : List Nat).indexOf e) 0) = [j, i] := by
      rw [hrange2, List.map_cons, List.map_cons, List.map_nil, houtIdx]
      rfl
    have hflat : flattenIdx [(r : Int), (c : Int)] [j, i] = j * c + i := by
      simp [flattenIdx, prodShape]
    show ((List.range (prodShape ((transposeWeights [(r : Int), (c : Int)] vals
        [1, 0]).1))).map _).getD (i * r + j) 0 = vals.getD (j * c + i) 0
    rw [hshape, hprod, getD_map_range _ _ _ hlt]
    simp only []
    rw [show ([1, 0] : List Nat).map
        (fun p => ([(r : Int), (c : Int)] : Dims).getD p 0) = [(c : Int), (r : Int)] by simp]
    rw [show ([(r : Int), (c : Int)] : Dims).length = 2 by rfl]
    rw [hinIdx, hflat]

theorem importTranspose_weights_folds_witness :
    importTranspose (.weights [2, 3] [10, 20, 30, 40, 50, 60]) (some [1, 0]) Net.empty
      = (Net.empty, .ok (.weights [3, 2]
          (transposeWeights [2, 3] [10, 20, 30, 40, 50, 60] [1, 0]).2)) ∧
    (transposeWeights [2, 3] [10, 20, 30, 40, 50, 60] [1, 0]).2 = [10, 40, 20, 50, 30, 60] ∧
    (transposeWeights [2, 3] [10, 20, 30, 40, 50, 60] [1, 0]).2.getD (1 * 2 + 0) 0
      = [10, 20, 30, 40, 50, 60].getD (0 * 3 + 1) 0 := by
  have h := importTranspose_weights_folds 2 3 [10, 20, 30, 40, 50, 60] Net.empty
  refine ⟨?_, by decide, h.2.2 1 0 (by decide) (by decide)⟩
  have h1 := h.1
  norm_num at h1 ⊢
  exact h1

end OnnxTrt
